import Mathlib

/-!
Shallow embedding of the historical-weather acquisition pipeline of the
weather-forecast repository (files src/utils/data_loader.py and
src/weather_app_standalone.py), together with theorems settling the
frozen claims about it.

Conventions of the embedding:
* Python floats are modelled as rationals (the source only ever adds,
  multiplies, divides and compares them; decimal literals are written as exact integer fractions, since the scientific-literal form of Mathlib Rat does not reduce in the kernel).
* pandas data frames are modelled column-wise (structure Frame); a missing
  cell (NaN) is Option.none.
* calendar timestamps are modelled by an integer day ordinal, file
  modification times by integer seconds; the functions dayOfYear/month of a
  day ordinal are abstract environment parameters (cal), as are the live
  Meteostat source (live), the numpy pseudo-random source (Prng) and np.sin
  (sinFn): no claim depends on their concrete numeric values.
-/

set_option maxRecDepth 20000

/-- Lower-case the characters of a string, as Python str.lower does on the
ASCII city names of this repository. -/
def lowerChars (s : String) : List Char :=
  s.data.map Char.toLower

/-- Model of city_name.lower().replace(" ", "") from
WeatherDataLoader.get_city_info (the normalization applied to the NAME side
of the comparison, and to city_name in _generate_synthetic_data): replacing
every single-character occurrence by the empty string is filtering. -/
def normName (s : String) : List Char :=
  (lowerChars s).filter (fun c => c != ' ')

/-- Model of city_name.lower().replace(" ", "").replace("-", "") from
WeatherDataLoader.get_city_info (the normalization applied to the QUERY). -/
def normQuery (s : String) : List Char :=
  ((lowerChars s).filter (fun c => c != ' ')).filter (fun c => c != '-')

/-- One record of the WeatherDataLoader.INDIAN_CITIES registry. -/
structure CityInfo where
  name : String
  lat : Rat
  lon : Rat
  state : String
deriving DecidableEq, Repr

/-- Part 1 of the INDIAN_CITIES dict literal (the literal is split into
four parts only to keep elaboration linear; the source has one literal). -/
def INDIAN_CITIES_1 : List (String × CityInfo) := [
  ("mumbai", ⟨"Mumbai", (190760/10000), (728777/10000), "Maharashtra"⟩),
  ("delhi", ⟨"Delhi", (287041/10000), (771025/10000), "Delhi"⟩),
  ("bangalore", ⟨"Bangalore", (129716/10000), (775946/10000), "Karnataka"⟩),
  ("hyderabad", ⟨"Hyderabad", (173850/10000), (784867/10000), "Telangana"⟩),
  ("chennai", ⟨"Chennai", (130827/10000), (802707/10000), "Tamil Nadu"⟩),
  ("kolkata", ⟨"Kolkata", (225726/10000), (883639/10000), "West Bengal"⟩),
  ("pune", ⟨"Pune", (185204/10000), (738567/10000), "Maharashtra"⟩),
  ("ahmedabad", ⟨"Ahmedabad", (230225/10000), (725714/10000), "Gujarat"⟩),
  ("surat", ⟨"Surat", (211702/10000), (728311/10000), "Gujarat"⟩),
  ("jaipur", ⟨"Jaipur", (269124/10000), (757873/10000), "Rajasthan"⟩),
  ("lucknow", ⟨"Lucknow", (268467/10000), (809462/10000), "Uttar Pradesh"⟩),
  ("kanpur", ⟨"Kanpur", (264499/10000), (803319/10000), "Uttar Pradesh"⟩),
  ("nagpur", ⟨"Nagpur", (211458/10000), (790882/10000), "Maharashtra"⟩),
  ("indore", ⟨"Indore", (227196/10000), (758577/10000), "Madhya Pradesh"⟩),
  ("thane", ⟨"Thane", (192183/10000), (729781/10000), "Maharashtra"⟩),
  ("bhopal", ⟨"Bhopal", (232599/10000), (774126/10000), "Madhya Pradesh"⟩),
  ("visakhapatnam", ⟨"Visakhapatnam", (176869/10000), (832185/10000), "Andhra Pradesh"⟩),
  ("patna", ⟨"Patna", (255941/10000), (851376/10000), "Bihar"⟩),
  ("vadodara", ⟨"Vadodara", (223072/10000), (731812/10000), "Gujarat"⟩),
  ("ghaziabad", ⟨"Ghaziabad", (286692/10000), (774538/10000), "Uttar Pradesh"⟩),
  ("ludhiana", ⟨"Ludhiana", (309010/10000), (758573/10000), "Punjab"⟩),
  ("agra", ⟨"Agra", (271767/10000), (780081/10000), "Uttar Pradesh"⟩),
  ("nashik", ⟨"Nashik", (199975/10000), (737898/10000), "Maharashtra"⟩),
  ("faridabad", ⟨"Faridabad", (284089/10000), (773178/10000), "Haryana"⟩),
  ("meerut", ⟨"Meerut", (289845/10000), (777064/10000), "Uttar Pradesh"⟩),
  ("rajkot", ⟨"Rajkot", (223039/10000), (708022/10000), "Gujarat"⟩),
  ("varanasi", ⟨"Varanasi", (253176/10000), (829739/10000), "Uttar Pradesh"⟩),
  ("amritsar", ⟨"Amritsar", (316340/10000), (748723/10000), "Punjab"⟩),
  ("allahabad", ⟨"Allahabad", (254358/10000), (818463/10000), "Uttar Pradesh"⟩),
  ("ranchi", ⟨"Ranchi", (233441/10000), (853096/10000), "Jharkhand"⟩),
  ("howrah", ⟨"Howrah", (225958/10000), (882636/10000), "West Bengal"⟩),
  ("coimbatore", ⟨"Coimbatore", (110168/10000), (769558/10000), "Tamil Nadu"⟩),
  ("jabalpur", ⟨"Jabalpur", (231815/10000), (799864/10000), "Madhya Pradesh"⟩),
  ("gwalior", ⟨"Gwalior", (262183/10000), (781828/10000), "Madhya Pradesh"⟩),
  ("vijayawada", ⟨"Vijayawada", (165062/10000), (806480/10000), "Andhra Pradesh"⟩),
  ("jodhpur", ⟨"Jodhpur", (262389/10000), (730243/10000), "Rajasthan"⟩),
  ("madurai", ⟨"Madurai", (99252/10000), (781198/10000), "Tamil Nadu"⟩),
  ("raipur", ⟨"Raipur", (212514/10000), (816296/10000), "Chhattisgarh"⟩),
  ("kota", ⟨"Kota", (252138/10000), (758648/10000), "Rajasthan"⟩)]

/-- Part 2 of the INDIAN_CITIES dict literal (the literal is split into
four parts only to keep elaboration linear; the source has one literal). -/
def INDIAN_CITIES_2 : List (String × CityInfo) := [
  ("chandigarh", ⟨"Chandigarh", (307333/10000), (767794/10000), "Chandigarh"⟩),
  ("guwahati", ⟨"Guwahati", (261445/10000), (917362/10000), "Assam"⟩),
  ("thiruvananthapuram", ⟨"Thiruvananthapuram", (85241/10000), (769366/10000), "Kerala"⟩),
  ("bhubaneswar", ⟨"Bhubaneswar", (202961/10000), (858245/10000), "Odisha"⟩),
  ("puducherry", ⟨"Puducherry", (119416/10000), (798083/10000), "Puducherry"⟩),
  ("panaji", ⟨"Panaji", (154909/10000), (738278/10000), "Goa"⟩),
  ("dispur", ⟨"Dispur", (261433/10000), (917898/10000), "Assam"⟩),
  ("imphal", ⟨"Imphal", (248170/10000), (939368/10000), "Manipur"⟩),
  ("shillong", ⟨"Shillong", (255788/10000), (918933/10000), "Meghalaya"⟩),
  ("aizawl", ⟨"Aizawl", (237307/10000), (927173/10000), "Mizoram"⟩),
  ("kohima", ⟨"Kohima", (256751/10000), (941086/10000), "Nagaland"⟩),
  ("itanagar", ⟨"Itanagar", (270844/10000), (936053/10000), "Arunachal Pradesh"⟩),
  ("port-blair", ⟨"Port Blair", (116234/10000), (927265/10000), "Andaman and Nicobar"⟩),
  ("silvassa", ⟨"Silvassa", (202737/10000), (730135/10000), "Dadra and Nagar Haveli"⟩),
  ("shimla", ⟨"Shimla", (311048/10000), (771734/10000), "Himachal Pradesh"⟩),
  ("manali", ⟨"Manali", (322396/10000), (771887/10000), "Himachal Pradesh"⟩),
  ("dharamshala", ⟨"Dharamshala", (322190/10000), (763234/10000), "Himachal Pradesh"⟩),
  ("nainital", ⟨"Nainital", (293919/10000), (794542/10000), "Uttarakhand"⟩),
  ("mussoorie", ⟨"Mussoorie", (304598/10000), (780644/10000), "Uttarakhand"⟩),
  ("dehradun", ⟨"Dehradun", (303165/10000), (780322/10000), "Uttarakhand"⟩),
  ("rishikesh", ⟨"Rishikesh", (300869/10000), (782676/10000), "Uttarakhand"⟩),
  ("haridwar", ⟨"Haridwar", (299457/10000), (781642/10000), "Uttarakhand"⟩),
  ("darjeeling", ⟨"Darjeeling", (270410/10000), (882663/10000), "West Bengal"⟩),
  ("gangtok", ⟨"Gangtok", (273389/10000), (886065/10000), "Sikkim"⟩),
  ("srinagar", ⟨"Srinagar", (340837/10000), (747973/10000), "Jammu and Kashmir"⟩),
  ("leh", ⟨"Leh", (341526/10000), (775771/10000), "Ladakh"⟩),
  ("ooty", ⟨"Ooty", (114102/10000), (766950/10000), "Tamil Nadu"⟩),
  ("kodaikanal", ⟨"Kodaikanal", (102381/10000), (774892/10000), "Tamil Nadu"⟩),
  ("munnar", ⟨"Munnar", (100889/10000), (770595/10000), "Kerala"⟩),
  ("wayanad", ⟨"Wayanad", (116054/10000), (760837/10000), "Kerala"⟩),
  ("mount-abu", ⟨"Mount Abu", (245926/10000), (727156/10000), "Rajasthan"⟩),
  ("mahabaleshwar", ⟨"Mahabaleshwar", (179246/10000), (736577/10000), "Maharashtra"⟩),
  ("lonavala", ⟨"Lonavala", (187537/10000), (734086/10000), "Maharashtra"⟩),
  ("coorg", ⟨"Coorg", (123375/10000), (758069/10000), "Karnataka"⟩),
  ("kochi", ⟨"Kochi", (99312/10000), (762673/10000), "Kerala"⟩),
  ("mysore", ⟨"Mysore", (122958/10000), (766394/10000), "Karnataka"⟩),
  ("mangalore", ⟨"Mangalore", (129141/10000), (748560/10000), "Karnataka"⟩),
  ("hubli", ⟨"Hubli", (153647/10000), (751240/10000), "Karnataka"⟩),
  ("belgaum", ⟨"Belgaum", (158497/10000), (744977/10000), "Karnataka"⟩)]

/-- Part 3 of the INDIAN_CITIES dict literal (the literal is split into
four parts only to keep elaboration linear; the source has one literal). -/
def INDIAN_CITIES_3 : List (String × CityInfo) := [
  ("tirupati", ⟨"Tirupati", (136288/10000), (794192/10000), "Andhra Pradesh"⟩),
  ("guntur", ⟨"Guntur", (163067/10000), (804365/10000), "Andhra Pradesh"⟩),
  ("nellore", ⟨"Nellore", (144426/10000), (799865/10000), "Andhra Pradesh"⟩),
  ("tirunelveli", ⟨"Tirunelveli", (87139/10000), (777567/10000), "Tamil Nadu"⟩),
  ("salem", ⟨"Salem", (116643/10000), (781460/10000), "Tamil Nadu"⟩),
  ("tiruchirappalli", ⟨"Tiruchirappalli", (107905/10000), (787047/10000), "Tamil Nadu"⟩),
  ("vellore", ⟨"Vellore", (129165/10000), (791325/10000), "Tamil Nadu"⟩),
  ("erode", ⟨"Erode", (113410/10000), (777172/10000), "Tamil Nadu"⟩),
  ("thrissur", ⟨"Thrissur", (105276/10000), (762144/10000), "Kerala"⟩),
  ("kollam", ⟨"Kollam", (88932/10000), (766141/10000), "Kerala"⟩),
  ("kozhikode", ⟨"Kozhikode", (112588/10000), (757804/10000), "Kerala"⟩),
  ("palakkad", ⟨"Palakkad", (107733/10000), (766547/10000), "Kerala"⟩),
  ("alappuzha", ⟨"Alappuzha", (94981/10000), (763388/10000), "Kerala"⟩),
  ("noida", ⟨"Noida", (285355/10000), (773910/10000), "Uttar Pradesh"⟩),
  ("gurugram", ⟨"Gurugram", (284595/10000), (770266/10000), "Haryana"⟩),
  ("rohtak", ⟨"Rohtak", (288955/10000), (766066/10000), "Haryana"⟩),
  ("panipat", ⟨"Panipat", (293909/10000), (769635/10000), "Haryana"⟩),
  ("karnal", ⟨"Karnal", (296857/10000), (769905/10000), "Haryana"⟩),
  ("ambala", ⟨"Ambala", (303782/10000), (767767/10000), "Haryana"⟩),
  ("patiala", ⟨"Patiala", (303398/10000), (763869/10000), "Punjab"⟩),
  ("jalandhar", ⟨"Jalandhar", (313260/10000), (755762/10000), "Punjab"⟩),
  ("bathinda", ⟨"Bathinda", (302110/10000), (749455/10000), "Punjab"⟩),
  ("mohali", ⟨"Mohali", (307046/10000), (767179/10000), "Punjab"⟩),
  ("jammu", ⟨"Jammu", (327266/10000), (748570/10000), "Jammu and Kashmir"⟩),
  ("udaipur", ⟨"Udaipur", (245854/10000), (737125/10000), "Rajasthan"⟩),
  ("ajmer", ⟨"Ajmer", (264499/10000), (746399/10000), "Rajasthan"⟩),
  ("bikaner", ⟨"Bikaner", (280229/10000), (733119/10000), "Rajasthan"⟩),
  ("alwar", ⟨"Alwar", (275530/10000), (766346/10000), "Rajasthan"⟩),
  ("bharatpur", ⟨"Bharatpur", (272152/10000), (774899/10000), "Rajasthan"⟩),
  ("cuttack", ⟨"Cuttack", (204625/10000), (858830/10000), "Odisha"⟩),
  ("puri", ⟨"Puri", (198135/10000), (858312/10000), "Odisha"⟩),
  ("rourkela", ⟨"Rourkela", (222604/10000), (848536/10000), "Odisha"⟩),
  ("jamshedpur", ⟨"Jamshedpur", (228046/10000), (862029/10000), "Jharkhand"⟩),
  ("dhanbad", ⟨"Dhanbad", (237957/10000), (864304/10000), "Jharkhand"⟩),
  ("bokaro", ⟨"Bokaro", (236693/10000), (861511/10000), "Jharkhand"⟩),
  ("durgapur", ⟨"Durgapur", (235204/10000), (873119/10000), "West Bengal"⟩),
  ("asansol", ⟨"Asansol", (236739/10000), (869524/10000), "West Bengal"⟩),
  ("siliguri", ⟨"Siliguri", (267271/10000), (883953/10000), "West Bengal"⟩),
  ("gaya", ⟨"Gaya", (247955/10000), (850002/10000), "Bihar"⟩)]

/-- Part 4 of the INDIAN_CITIES dict literal (the literal is split into
four parts only to keep elaboration linear; the source has one literal). -/
def INDIAN_CITIES_4 : List (String × CityInfo) := [
  ("bhagalpur", ⟨"Bhagalpur", (252425/10000), (869842/10000), "Bihar"⟩),
  ("muzaffarpur", ⟨"Muzaffarpur", (261225/10000), (853906/10000), "Bihar"⟩),
  ("bilaspur", ⟨"Bilaspur", (220797/10000), (821409/10000), "Chhattisgarh"⟩),
  ("korba", ⟨"Korba", (223595/10000), (827501/10000), "Chhattisgarh"⟩),
  ("bhilai", ⟨"Bhilai", (212095/10000), (813785/10000), "Chhattisgarh"⟩),
  ("ujjain", ⟨"Ujjain", (231765/10000), (757885/10000), "Madhya Pradesh"⟩),
  ("sagar", ⟨"Sagar", (238388/10000), (787378/10000), "Madhya Pradesh"⟩),
  ("dewas", ⟨"Dewas", (229676/10000), (760534/10000), "Madhya Pradesh"⟩),
  ("cherrapunji", ⟨"Cherrapunji", (252959/10000), (917324/10000), "Meghalaya"⟩),
  ("mawsynram", ⟨"Mawsynram", (252975/10000), (915805/10000), "Meghalaya"⟩),
  ("mahabalipuram", ⟨"Mahabalipuram", (126269/10000), (801926/10000), "Tamil Nadu"⟩),
  ("pondicherry", ⟨"Pondicherry", (119416/10000), (798083/10000), "Puducherry"⟩),
  ("kannur", ⟨"Kannur", (118745/10000), (753704/10000), "Kerala"⟩),
  ("kottayam", ⟨"Kottayam", (95916/10000), (765222/10000), "Kerala"⟩),
  ("idukki", ⟨"Idukki", (99189/10000), (771025/10000), "Kerala"⟩),
  ("udupi", ⟨"Udupi", (133409/10000), (747421/10000), "Karnataka"⟩),
  ("karwar", ⟨"Karwar", (148137/10000), (741290/10000), "Karnataka"⟩),
  ("ratnagiri", ⟨"Ratnagiri", (169944/10000), (733000/10000), "Maharashtra"⟩),
  ("alibag", ⟨"Alibag", (186414/10000), (728722/10000), "Maharashtra"⟩),
  ("amboli", ⟨"Amboli", (159589/10000), (740047/10000), "Maharashtra"⟩),
  ("tezpur", ⟨"Tezpur", (266338/10000), (928000/10000), "Assam"⟩),
  ("dibrugarh", ⟨"Dibrugarh", (274728/10000), (949120/10000), "Assam"⟩),
  ("silchar", ⟨"Silchar", (248333/10000), (927789/10000), "Assam"⟩),
  ("agartala", ⟨"Agartala", (238315/10000), (912868/10000), "Tripura"⟩),
  ("gulmarg", ⟨"Gulmarg", (340484/10000), (743805/10000), "Jammu and Kashmir"⟩),
  ("pahalgam", ⟨"Pahalgam", (340161/10000), (753150/10000), "Jammu and Kashmir"⟩),
  ("sonamarg", ⟨"Sonamarg", (343000/10000), (752833/10000), "Jammu and Kashmir"⟩),
  ("dalhousie", ⟨"Dalhousie", (325448/10000), (759470/10000), "Himachal Pradesh"⟩),
  ("kullu", ⟨"Kullu", (319578/10000), (771093/10000), "Himachal Pradesh"⟩),
  ("spiti", ⟨"Spiti", (322466/10000), (780336/10000), "Himachal Pradesh"⟩),
  ("keylong", ⟨"Keylong", (325721/10000), (770353/10000), "Himachal Pradesh"⟩),
  ("chamba", ⟨"Chamba", (325562/10000), (761265/10000), "Himachal Pradesh"⟩),
  ("auli", ⟨"Auli", (305323/10000), (795833/10000), "Uttarakhand"⟩),
  ("kedarnath", ⟨"Kedarnath", (307346/10000), (790669/10000), "Uttarakhand"⟩),
  ("badrinath", ⟨"Badrinath", (307433/10000), (794938/10000), "Uttarakhand"⟩),
  ("kargil", ⟨"Kargil", (345539/10000), (761313/10000), "Ladakh"⟩),
  ("tawang", ⟨"Tawang", (275860/10000), (918597/10000), "Arunachal Pradesh"⟩),
  ("sandakphu", ⟨"Sandakphu", (271095/10000), (880146/10000), "West Bengal"⟩),
  ("yumthang", ⟨"Yumthang Valley", (278100/10000), (887114/10000), "Sikkim"⟩)]

/-- The WeatherDataLoader.INDIAN_CITIES dictionary, as an association list in
source order: the concatenation of the four parts above.  The source dict
literal repeats the keys bhubaneswar and mahabaleshwar with identical
values; a Python dict keeps the first position and the (identical) last
value, so those two duplicates are dropped. -/
def INDIAN_CITIES : List (String × CityInfo) :=
  INDIAN_CITIES_1 ++ INDIAN_CITIES_2 ++ INDIAN_CITIES_3 ++ INDIAN_CITIES_4

/-- Lexicographic comparison of character lists by code point, the order
Python sorted uses on strings. -/
def charListLt : List Char → List Char → Bool
  | [], [] => false
  | [], _ :: _ => true
  | _ :: _, [] => false
  | a :: as, b :: bs =>
    if a.toNat < b.toNat then true
    else if b.toNat < a.toNat then false
    else charListLt as bs

/-- Code-point comparison of strings (Python string less-than). -/
def strLt (s t : String) : Bool :=
  charListLt s.data t.data

/-- Insert a name into an already sorted list of names, preserving the
ascending lexicographic order that Python sorted produces. -/
def insertName (s : String) : List String → List String
  | [] => [s]
  | t :: ts => if strLt s t then s :: t :: ts else t :: insertName s ts

/-- Insertion sort over strings, modelling the Python builtin sorted on the
(pairwise distinct) city names. -/
def sortNames : List String → List String
  | [] => []
  | s :: ss => insertName s (sortNames ss)

/-- Model of WeatherDataLoader.get_city_list: the sorted list of the display
names of the registry values. -/
def get_city_list : List String :=
  sortNames (INDIAN_CITIES.map (fun p => p.2.name))

/-- The scan of WeatherDataLoader.get_city_info over the registry, given the
already normalized query key: the first record whose space-stripped
lower-case name equals the key, or whose dict key equals the key. -/
def lookupCityKey (city_key : List Char) : Option CityInfo :=
  (INDIAN_CITIES.find? (fun p =>
    normName p.2.name == city_key || p.1.data == city_key)).map (fun p => p.2)

/-- Model of WeatherDataLoader.get_city_info: none models the ValueError
("City not found in database") raised by the source. -/
def get_city_info (city_name : String) : Option CityInfo :=
  lookupCityKey (normQuery city_name)

example : (get_city_info "Mumbai").map CityInfo.name = some "Mumbai" := by decide
example : (get_city_info "PORT-blair").map CityInfo.name = some "Port Blair" := by decide
example : get_city_info "Atlantis" = none := by decide

/-- A pandas daily data frame, column-wise: one date per row plus the six
Meteostat metric columns (tavg/tmin/tmax = average/min/max temperature,
prcp = precipitation, wspd = wind speed, pres = pressure).  A cell holds
none where the source frame holds NaN.  The standalone pipeline renames
these columns (temperature/temp_min/temp_max/precipitation/wind_speed/
pressure); the shapes are identical. -/
structure Frame where
  dates : List Int
  tavg : List (Option Rat)
  tmin : List (Option Rat)
  tmax : List (Option Rat)
  prcp : List (Option Rat)
  wspd : List (Option Rat)
  pres : List (Option Rat)
deriving DecidableEq, Repr

/-- Model of df.empty: a pandas daily frame is empty when it has no rows. -/
def Frame.isEmpty (f : Frame) : Bool :=
  f.dates.isEmpty

/-- The frame with no rows, as returned by a Meteostat query with no data. -/
def Frame.noRows : Frame :=
  ⟨[], [], [], [], [], [], []⟩

/-- Abstract model of the numpy global pseudo-random source: a state (Nat)
plus one state-threading draw function per distribution used by the code.
The concrete Mersenne-Twister streams are irrelevant to every claim; only
the state threading and the reseeding discipline matter. -/
structure Prng where
  seedFn : Nat → Nat
  normalFn : Nat → Rat → Rat → Rat × Nat
  uniformFn : Nat → Rat → Rat → Rat × Nat
  expFn : Nat → Rat → Rat × Nat

/-- Draw n values from a state-threading draw function, returning the list
of draws (in order) and the final state.  Models one vectorized numpy call
such as np.random.normal(mu, sigma, n). -/
def drawN (f : Nat → Rat × Nat) : Nat → Nat → List Rat × Nat
  | 0, g => ([], g)
  | n + 1, g =>
    let p := f g
    let r := drawN f n p.2
    (p.1 :: r.1, r.2)

/-- Model of numpy round to 1 decimal place (ndarray.round(1)).  Mathlib
round breaks ties half-up while numpy breaks them half-to-even; no claim
depends on tie behaviour. -/
def round1 (x : Rat) : Rat :=
  ((round (x * 10) : Int) : Rat) / 10

/-- Model of np.clip(x, lo, hi). -/
def npClip (x lo hi : Rat) : Rat :=
  max lo (min x hi)

/-- Arithmetic mean of a list, modelling np.mean / pandas Series.mean on the
present values (Rat division by zero yields 0 where numpy would warn NaN on
an empty array; no claim evaluates that case). -/
def listMean (l : List Rat) : Rat :=
  l.sum / (l.length : Rat)

/-- Model of np.cumsum: partial sums, first element included. -/
def cumsum (l : List Rat) : List Rat :=
  (l.scanl (· + ·) 0).drop 1

/-- True when pattern occurs at the start of text (helper for the Python
substring test). -/
def beginsWith : List Char → List Char → Bool
  | [], _ => true
  | _ :: _, [] => false
  | a :: as, b :: bs => a == b && beginsWith as bs

/-- Model of the Python substring containment test (pattern in text). -/
def containsSub (p : List Char) : List Char → Bool
  | [] => beginsWith p []
  | c :: cs => beginsWith p (c :: cs) || containsSub p cs

/-- The hill_stations set of WeatherDataLoader._generate_synthetic_data. -/
def hill_stations : List String := [
  "shimla", "manali", "kullu", "dalhousie", "dharamshala", "mcleodganj",
  "dehradun", "mussoorie", "nainital", "almora", "ranikhet",
  "ooty", "kodaikanal", "munnar", "darjeeling", "gangtok",
  "shillong", "cherrapunji", "mawsynram", "tawang", "aizawl",
  "mahabaleshwar", "lonavala", "panchgani", "coorg", "wayanad",
  "gulmarg", "pahalgam", "sonamarg", "leh", "kargil",
  "spitivalley", "keylong", "auli", "kedarnath", "badrinath",
  "sandakphu", "yumthangvalley"]

/-- The coastal_cities set of WeatherDataLoader._generate_synthetic_data. -/
def coastal_cities : List String := [
  "mumbai", "goa", "kochi", "thiruvananthapuram", "kozhikode",
  "mangalore", "udupi", "karwar", "ratnagiri", "alibag",
  "chennai", "visakhapatnam", "puducherry", "mahabalipuram",
  "portblair", "panjim", "vasco", "margao"]

/-- The hot_dry_cities set of WeatherDataLoader._generate_synthetic_data. -/
def hot_dry_cities : List String := [
  "jaisalmer", "bikaner", "jodhpur", "ajmer", "udaipur",
  "ahmedabad", "rajkot", "surat", "vadodara"]

/-- Membership of a normalized city key in one of the climate sets (the
Python test city_key in set_of_strings). -/
def keyMem (key : List Char) (set : List String) : Bool :=
  set.any (fun s => s.data == key)

/-- The (base_temp, temp_variation) classification of
WeatherDataLoader._generate_synthetic_data (lines 409-445). -/
def dlClimate (city_key : List Char) (lat : Rat) : Rat × Rat :=
  if keyMem city_key hill_stations
      || containsSub "hill".data city_key
      || containsSub "ganj".data city_key then
    if lat > 32 then (10, 12)
    else if lat > 28 then (18, 10)
    else (20, 6)
  else if keyMem city_key coastal_cities then (28, 4)
  else if keyMem city_key hot_dry_cities then (32, 14)
  else
    if lat > 30 then (15, 15)
    else if lat > 25 then (25, 12)
    else if lat > 20 then (28, 8)
    else if lat > 15 then (27, 6)
    else (28, 5)

/-- Model of pd.date_range(start, end, freq = daily): the day ordinals from
startOrd to endOrd, both endpoints included (empty when endOrd < startOrd).
The source passes datetimes with equal time-of-day components, so the count
is the day difference plus one. -/
def date_range_daily (startOrd endOrd : Int) : List Int :=
  (List.range (endOrd - startOrd + 1).toNat).map (fun (k : Nat) => startOrd + (k : Int))

/-- The monsoon multiplier of WeatherDataLoader._generate_synthetic_data
(lines 466-471), per month. -/
def dlMonsoonFactor (city_key : List Char) (lat : Rat) (m : Nat) : Rat :=
  if city_key == "cherrapunji".data || city_key == "mawsynram".data then
    if 6 ≤ m ∧ m ≤ 9 then 3 else (5/10)
  else if keyMem city_key coastal_cities || lat < 20 then
    if 6 ≤ m ∧ m ≤ 9 then (15/10) else (3/10)
  else
    if 6 ≤ m ∧ m ≤ 9 then 1 else (2/10)

/-- Model of WeatherDataLoader._generate_synthetic_data.  Parameters: the
pseudo-random source P with incoming global state g (the source does NOT
reseed here), sinFn modelling t mapsto sin(2 pi t), cal giving (day-of-year,
month) of a day ordinal, the city name and the date window.  Returns none
when the city name does not resolve (the ValueError of get_city_info
propagates), together with the final random state. -/
def dl_generate_synthetic_data (P : Prng) (sinFn : Rat → Rat)
    (cal : Int → Nat × Nat) (g : Nat) (city_name : String)
    (startOrd endOrd : Int) : Option Frame × Nat :=
  match get_city_info city_name with
  | none => (none, g)
  | some info =>
    let lat := info.lat
    let city_key := normName city_name
    let bt := dlClimate city_key lat
    let dates := date_range_daily startOrd endOrd
    let num_days := dates.length
    let seasonal_factor := dates.map (fun d => sinFn ((((cal d).1 : Rat) - 80) / 365))
    let d1 := drawN (fun s => P.normalFn s 0 2) num_days g
    let tavg := (List.zipWith (· + ·)
      (seasonal_factor.map (fun sf => bt.1 + sf * bt.2)) d1.1)
    let d2 := drawN (fun s => P.uniformFn s 3 7) num_days d1.2
    let tmax := List.zipWith (· + ·) tavg d2.1
    let d3 := drawN (fun s => P.uniformFn s 3 7) num_days d2.2
    let tmin := List.zipWith (· - ·) tavg d3.1
    let monsoon_factor := dates.map (fun d => dlMonsoonFactor city_key lat (cal d).2)
    let d4 := drawN (fun s => P.expFn s 5) num_days d3.2
    let prcp := (List.zipWith (· * ·) d4.1 monsoon_factor).map
      (fun x => npClip x 0 150)
    let d5 := drawN (fun s => P.uniformFn s 5 25) num_days d4.2
    let wspd := d5.1
    let base_pressure : Rat := if keyMem city_key hill_stations then 950 else 1013
    let d6 := drawN (fun s => P.normalFn s base_pressure 5) num_days d5.2
    let pres := d6.1
    (some ⟨dates,
      tavg.map (fun x => some (round1 x)),
      tmin.map (fun x => some (round1 x)),
      tmax.map (fun x => some (round1 x)),
      prcp.map (fun x => some (round1 x)),
      wspd.map (fun x => some (round1 x)),
      pres.map (fun x => some (round1 x))⟩, d6.2)

/-- The latitude-band climate classification of _generate_synthetic_history
in weather_app_standalone.py (lines 388-399). -/
def saClimate (lat : Rat) : Rat × Rat :=
  if lat > 30 then (18, 8)
  else if lat > 25 then (25, 10)
  else if lat > 20 then (28, 6)
  else (27, 5)

/-- The monsoon multiplier of _generate_synthetic_history (line 417). -/
def saMonsoonFactor (m : Nat) : Rat :=
  if 6 ≤ m ∧ m ≤ 9 then 2 else (3/10)

/-- Model of _generate_synthetic_history of weather_app_standalone.py.
The incoming global random state g is discarded: the source begins with
np.random.seed(42) for reproducibility.  dates are the day ordinals
nowOrd - (days-1), ..., nowOrd (range(days-1, -1, -1) reversed offsets). -/
def sa_generate_synthetic_history (P : Prng) (sinFn : Rat → Rat)
    (cal : Int → Nat × Nat) (g : Nat) (lat lon : Rat) (days : Nat)
    (nowOrd : Int) : Frame × Nat :=
  let g0 := P.seedFn 42
  let bt := saClimate lat
  let dates := ((List.range days).reverse).map (fun (i : Nat) => nowOrd - (i : Int))
  let seasonal := dates.map (fun d => sinFn ((((cal d).1 : Rat) - 80) / 365) * bt.2)
  let d1 := drawN (fun s => P.normalFn s 0 (5/10)) days g0
  let random_walk0 := cumsum d1.1
  let random_walk := random_walk0.map (fun x => x - listMean random_walk0)
  let d2 := drawN (fun s => P.normalFn s 0 2) days d1.2
  let temperature := List.zipWith (· + ·)
    (List.zipWith (· + ·) (seasonal.map (fun s => bt.1 + s)) d2.1)
    (random_walk.map (fun x => x * (3/10)))
  let d3 := drawN (fun s => P.uniformFn s 3 6) days d2.2
  let temp_min := List.zipWith (· - ·) temperature d3.1
  let d4 := drawN (fun s => P.uniformFn s 3 6) days d3.2
  let temp_max := List.zipWith (· + ·) temperature d4.1
  let monsoon_factor := dates.map (fun d => saMonsoonFactor (cal d).2)
  let d5 := drawN (fun s => P.expFn s 3) days d4.2
  let precipitation := (List.zipWith (· * ·) d5.1 monsoon_factor).map
    (fun x => npClip x 0 50)
  let d6 := drawN (fun s => P.uniformFn s 5 20) days d5.2
  let d7 := drawN (fun s => P.normalFn s 0 3) days d6.2
  let wind_speed := (List.zipWith (· + ·) d6.1 d7.1).map (fun x => npClip x 2 40)
  let d8 := drawN (fun s => P.normalFn s 1013 5) days d7.2
  let pressure := d8.1
  (⟨dates,
    temperature.map (fun x => some (round1 x)),
    temp_min.map (fun x => some (round1 x)),
    temp_max.map (fun x => some (round1 x)),
    precipitation.map (fun x => some (round1 x)),
    wind_speed.map (fun x => some (round1 x)),
    pressure.map (fun x => some (round1 x))⟩, d8.2)

/-- Provenance of a returned series, one constructor per meteostat_source
string of WeatherDataLoader.fetch_historical_data:
cacheFile = "File cache: {city}", exactPoint = "Meteostat: {city} (lat,lon)",
nearbyStation off = "Meteostat: Nearby station (lat+off1, lon+off2)",
delhiFallback = "Meteostat: Delhi fallback (28.70, 77.10)",
synthetic = "Synthetic data (estimated for {city})". -/
inductive Prov where
  | cacheFile
  | exactPoint
  | nearbyStation (off : Rat × Rat)
  | delhiFallback
  | synthetic
deriving DecidableEq, Repr

/-- Outcome of a call to fetch_historical_data: a frame with provenance, the
ValueError of an unresolvable city name, or the uncaught exception of a
failed cache write (df.to_csv has no try/except in the source). -/
inductive FetchOutcome where
  | data (f : Frame) (prov : Prov)
  | locNotFound
  | writeFailed
deriving DecidableEq, Repr

/-- A cache file: last-modified time in seconds and the stored rows. -/
structure CacheEntry where
  mtime : Int
  frame : Frame
deriving DecidableEq

/-- The file system holding the cache, as a map from path to file. -/
def CacheState : Type := String → Option CacheEntry

/-- Lower-case a city name and turn spaces into underscores, modelling
city_name.lower().replace(" ", "_") in the cache file name. -/
def cacheNameChars (s : String) : List Char :=
  (lowerChars s).map (fun c => if c == ' ' then '_' else c)

/-- The cache path os.path.join(data_dir, city_name.lower().replace(" ",
"_") + "_30days.csv") of fetch_historical_data line 306.  The days argument
is in scope at that line but UNUSED: the suffix is the literal "_30days"
whatever window was requested. -/
def cacheFileName (data_dir : String) (city_name : String) (_days : Nat) : String :=
  data_dir ++ "/" ++ String.mk (cacheNameChars city_name) ++ "_30days.csv"

/-- The cache gate of fetch_historical_data lines 308-314: the stored frame
when the file exists and its age, in whole days elapsed since its mtime
(Python timedelta.days, floor division), is strictly below cache_days;
otherwise none (a miss).  Reading is side-effect free. -/
def cacheLookup (cache : CacheState) (data_dir : String) (cache_days : Int)
    (nowSec : Int) (city_name : String) (days : Nat) : Option Frame :=
  match cache (cacheFileName data_dir city_name days) with
  | none => none
  | some e =>
    if Int.fdiv (nowSec - e.mtime) 86400 < cache_days then some e.frame
    else none

/-- Overwrite one cache file (df.to_csv on the success path). -/
def cacheStore (cache : CacheState) (path : String) (e : CacheEntry) : CacheState :=
  fun p => if p = path then some e else cache p

/-- The environment a fetch call runs in: the live Meteostat source indexed
by coordinates, the abstract random source and np.sin, the calendar, the
wall clock (seconds and day ordinal), and whether the cache write succeeds
(false models a disk or permission error in df.to_csv). -/
structure LoaderEnv where
  live : Rat → Rat → Frame
  prng : Prng
  sinFn : Rat → Rat
  cal : Int → Nat × Nat
  nowSec : Int
  nowOrd : Int
  writeOk : Bool

/-- Result of a fetch call: the outcome, the cache afterwards, and (as pure
instrumentation for the fallback-ordering claim) the list of coordinates the
live source was queried at, in order. -/
structure FetchRun where
  outcome : FetchOutcome
  cache : CacheState
  queried : List (Rat × Rat)

/-- The offset values [0.5, -0.5, 1.0, -1.0] of the nearby-station loops of
fetch_historical_data line 333-334. -/
def offset_vals : List Rat := [(5/10), -(5/10), 1, -1]

/-- The nearby-offset search set: the nested for loops try every
(lat_offset, lon_offset) pair in row-major order. -/
def nearby_offsets : List (Rat × Rat) :=
  offset_vals.flatMap (fun a => offset_vals.map (fun b => (a, b)))

/-- The nearby-station loop (fetch_historical_data lines 332-345): try each
offset in order, short-circuiting at the first non-empty frame.  Returns the
first hit (frame and its offset) if any, plus the coordinates queried. -/
def scan_offsets (live : Rat → Rat → Frame) (lat lon : Rat) :
    List (Rat × Rat) → Option (Frame × Rat × Rat) × List (Rat × Rat)
  | [] => (none, [])
  | off :: rest =>
    let f := live (lat + off.1) (lon + off.2)
    if f.isEmpty then
      let r := scan_offsets live lat lon rest
      (r.1, (lat + off.1, lon + off.2) :: r.2)
    else
      (some (f, off), [(lat + off.1, lon + off.2)])

/-- The registry record for the fixed fallback city: the source calls
get_city_info("Delhi") at line 350, which always resolves. -/
def delhiInfo : CityInfo :=
  (get_city_info "Delhi").getD ⟨"", 0, 0, ""⟩

/-- Save-and-return tail of fetch_historical_data (lines 362-369): df.to_csv
overwrites the cache file wholesale; a write error escapes as an exception
(there is no try/except), so the acquired frame is then NOT returned. -/
def dlFinish (env : LoaderEnv) (data_dir : String) (cache : CacheState)
    (city_name : String) (days : Nat) (f : Frame) (prov : Prov)
    (queried : List (Rat × Rat)) : FetchRun :=
  if env.writeOk then
    ⟨.data f prov,
     cacheStore cache (cacheFileName data_dir city_name days) ⟨env.nowSec, f⟩,
     queried⟩
  else ⟨.writeFailed, cache, queried⟩

/-- The fresh-acquisition path of fetch_historical_data (lines 316-369),
entered on a cache miss: resolve the city (ValueError when unknown), then
try the live source at the exact point, at the sixteen nearby offsets, at
Delhi, and finally generate synthetic data, short-circuiting at the first
non-empty frame; save the winner to the cache file and return it. -/
def dl_fetch_fresh (env : LoaderEnv) (data_dir : String) (cache : CacheState)
    (g : Nat) (city_name : String) (days : Nat) : FetchRun :=
  match get_city_info city_name with
  | none => ⟨.locNotFound, cache, []⟩
  | some info =>
    let endOrd := env.nowOrd
    let startOrd := env.nowOrd - (days : Int)
    let p0 : Rat × Rat := (info.lat, info.lon)
    let f0 := env.live info.lat info.lon
    if f0.isEmpty then
      match scan_offsets env.live info.lat info.lon nearby_offsets with
      | (some (f, off), tried) =>
        dlFinish env data_dir cache city_name days f (.nearbyStation off)
          (p0 :: tried)
      | (none, tried) =>
        let fD := env.live delhiInfo.lat delhiInfo.lon
        let q := p0 :: tried ++ [(delhiInfo.lat, delhiInfo.lon)]
        if fD.isEmpty then
          match dl_generate_synthetic_data env.prng env.sinFn env.cal g
              city_name startOrd endOrd with
          | (none, _) => ⟨.locNotFound, cache, q⟩
          | (some fS, _) => dlFinish env data_dir cache city_name days fS .synthetic q
        else
          dlFinish env data_dir cache city_name days fD .delhiFallback q
    else
      dlFinish env data_dir cache city_name days f0 .exactPoint [p0]

/-- Model of WeatherDataLoader.fetch_historical_data: the cache gate first
(BEFORE the city name is resolved), then the fresh path. -/
def dl_fetch_historical_data (env : LoaderEnv) (data_dir : String)
    (cache_days : Int) (cache : CacheState) (g : Nat) (city_name : String)
    (days : Nat) : FetchRun :=
  match cacheLookup cache data_dir cache_days env.nowSec city_name days with
  | some f => ⟨.data f .cacheFile, cache, []⟩
  | none => dl_fetch_fresh env data_dir cache g city_name days

/-- Model of pandas Series.fillna(v): every missing cell becomes v. -/
def fillnaCol (v : Rat) (c : List (Option Rat)) : List (Option Rat) :=
  c.map (fun o => some (o.getD v))

/-- Forward fill with a carried value: each missing cell takes the nearest
preceding present value (or stays missing before the first present one). -/
def ffillGo (carry : Option Rat) : List (Option Rat) → List (Option Rat)
  | [] => []
  | o :: rest =>
    let v := match o with
      | some x => some x
      | none => carry
    v :: ffillGo v rest

/-- Model of pandas Series.ffill(). -/
def ffillCol (c : List (Option Rat)) : List (Option Rat) :=
  ffillGo none c

/-- Model of pandas Series.bfill(): forward fill on the reversed column. -/
def bfillCol (c : List (Option Rat)) : List (Option Rat) :=
  (ffillGo none c.reverse).reverse

/-- The present (non-NaN) values of a column, in order. -/
def presentVals (c : List (Option Rat)) : List Rat :=
  c.filterMap id

/-- The precipitation cleanup of _fetch_from_meteostat line 346:
df["precipitation"].fillna(0). -/
def sa_clean_prcp (c : List (Option Rat)) : List (Option Rat) :=
  fillnaCol 0 c

/-- The temperature cleanup of _fetch_from_meteostat lines 349-353:
ffill, bfill, then fillna(25.0) for a column with no value at all. -/
def sa_clean_temp (c : List (Option Rat)) : List (Option Rat) :=
  fillnaCol 25 (bfillCol (ffillCol c))

/-- The wind/pressure cleanup of _fetch_from_meteostat lines 356-359: ffill,
bfill, then fillna with the column mean if any value is present, else the
fixed default (10.0 for wind_speed, 1013.0 for pressure). -/
def sa_clean_wind_pressure (dflt : Rat) (c : List (Option Rat)) : List (Option Rat) :=
  let c2 := bfillCol (ffillCol c)
  fillnaCol (if c2.any Option.isSome then listMean (presentVals c2) else dflt) c2

example : sa_clean_prcp [none, some 4, none] = [some 0, some 4, some 0] := by decide
example : sa_clean_temp [none, some 4, none, none, some 8, none]
    = [some 4, some 4, some 4, some 4, some 8, some 8] := by decide
example : sa_clean_temp [none, none] = [some 25, some 25] := by decide
example : sa_clean_wind_pressure 10 [none, none] = [some 10, some 10] := by decide
example : sa_clean_wind_pressure 1013 [none, some 7] = [some 7, some 7] := by decide

/-- A one-row frame used as a concrete non-empty live result in witnesses
and counterexamples. -/
def oneRowFrame : Frame :=
  ⟨[0], [some 20], [some 15], [some 25], [some 0], [some 10], [some 1013]⟩

/-- A concrete pseudo-random source for witnesses: the normal draw returns
its mean, the uniform draw its lower bound, the exponential draw its scale,
and the state is left unchanged. -/
def trivPrng : Prng :=
  ⟨fun s => s, fun s mu _ => (mu, s), fun s a _ => (a, s), fun s v => (v, s)⟩

/-- A concrete stand-in for np.sin in witnesses. -/
def zeroSin : Rat → Rat := fun _ => 0

/-- A concrete calendar for witnesses: every day is day 1 of month 1. -/
def janCal : Int → Nat × Nat := fun _ => (1, 1)

/-- The empty file system. -/
def emptyCache : CacheState := fun _ => none

/-- A live source with no data anywhere. -/
def deadLive : Rat → Rat → Frame := fun _ _ => Frame.noRows


/-- A live source returning the same one-row frame everywhere. -/
def liveOneRow : Rat → Rat → Frame := fun _ _ => oneRowFrame

/-- Concrete environment: live data everywhere, cache writes succeed. -/
def envOkWrite : LoaderEnv := ⟨liveOneRow, trivPrng, zeroSin, janCal, 0, 0, true⟩

/-- Concrete environment: live data everywhere, cache writes FAIL. -/
def envBadWrite : LoaderEnv := ⟨liveOneRow, trivPrng, zeroSin, janCal, 0, 0, false⟩

/-- Concrete environment: no live data anywhere, cache writes succeed. -/
def envDead : LoaderEnv := ⟨deadLive, trivPrng, zeroSin, janCal, 0, 0, true⟩

/-- A file system holding one fresh cache file under the cache key of the
unknown city name Atlantis. -/
def atlantisCache : CacheState :=
  fun p => if p = cacheFileName "data/raw" "Atlantis" 30 then some ⟨0, oneRowFrame⟩ else none

/-- A file system holding one cache file for Mumbai written at time 0. -/
def mumbaiCacheAt0 : CacheState :=
  fun p => if p = cacheFileName "data/raw" "Mumbai" 30 then some ⟨0, oneRowFrame⟩ else none

set_option maxHeartbeats 4000000 in
/-- C10: every display name in the list returned by get_city_list resolves
through get_city_info to the registry record whose name field is exactly
that display name (the lookup never raises the not-found error on them),
and the lookup result depends on the query string only through
lower-casing and removal of spaces and hyphens. -/
theorem c10_registry_round_trip :
    (∀ name ∈ get_city_list, (get_city_info name).map CityInfo.name = some name)
    ∧ ∀ q₁ q₂ : String, normQuery q₁ = normQuery q₂ →
        get_city_info q₁ = get_city_info q₂ := by
  constructor
  · decide
  · intro q₁ q₂ h
    unfold get_city_info
    rw [h]

/-- Witness for c10_registry_round_trip at the concrete name Agra and at a
pair of queries differing only in case, a hyphen and a space. -/
theorem c10_witness :
    (get_city_info "Agra").map CityInfo.name = some "Agra"
    ∧ get_city_info "PORT-blair" = get_city_info "Port Blair" :=
  ⟨c10_registry_round_trip.1 "Agra" (by decide),
   c10_registry_round_trip.2 "PORT-blair" "Port Blair" (by decide)⟩

/-- C5: for a stored cache entry, the cache gate returns the stored series
if and only if the whole days elapsed since the file mtime are strictly
below the freshness limit cache_days; a stale entry is reported absent
regardless of its content and the fetch then takes the fresh-acquisition
path. -/
theorem c5_cache_freshness (cache : CacheState) (data_dir : String)
    (cache_days : Int) (nowSec : Int) (city : String) (days : Nat)
    (e : CacheEntry)
    (h : cache (cacheFileName data_dir city days) = some e) :
    (cacheLookup cache data_dir cache_days nowSec city days = some e.frame
        ↔ Int.fdiv (nowSec - e.mtime) 86400 < cache_days)
    ∧ (¬ Int.fdiv (nowSec - e.mtime) 86400 < cache_days →
        cacheLookup cache data_dir cache_days nowSec city days = none
        ∧ ∀ (env : LoaderEnv) (g : Nat), env.nowSec = nowSec →
            dl_fetch_historical_data env data_dir cache_days cache g city days
              = dl_fetch_fresh env data_dir cache g city days) := by
  refine ⟨?_, fun hstale => ⟨?_, fun env g hnow => ?_⟩⟩
  · unfold cacheLookup
    rw [h]
    constructor
    · intro hsome
      by_contra hstale
      simp [hstale] at hsome
    · intro hfresh
      simp [hfresh]
  · unfold cacheLookup
    rw [h]
    simp [hstale]
  · unfold dl_fetch_historical_data cacheLookup
    rw [hnow, h]
    simp [hstale]

/-- Witness for c5_cache_freshness: a Mumbai entry written at time 0 and
looked up five days later with a one-day limit is reported absent. -/
theorem c5_witness :
    cacheLookup mumbaiCacheAt0 "data/raw" 1 432000 "Mumbai" 30 = none :=
  ((c5_cache_freshness mumbaiCacheAt0 "data/raw" 1 432000 "Mumbai" 30
    ⟨0, oneRowFrame⟩ (by decide)).2 (by decide)).1

set_option maxHeartbeats 1000000 in
/-- C4 counterexample: Atlantis is not in the registry, yet a fetch finds a
fresh cache file stored under the Atlantis cache key and returns its data
with cache provenance — the call does not fail, because the cache gate runs
BEFORE the city name is resolved (lines 306-314 precede line 317). -/
theorem c4_counterexample :
    get_city_info "Atlantis" = none
    ∧ (dl_fetch_historical_data envDead "data/raw" 1 atlantisCache 0
        "Atlantis" 30).outcome
      = FetchOutcome.data oneRowFrame Prov.cacheFile := by
  constructor
  · decide
  · rfl

/-- C4 as amended: an unknown city name makes the fetch fail with the
distinct location-not-found error, for every live source and before any
LIVE tier runs, PROVIDED the cache gate missed; the cache tier itself runs
first. -/
theorem c4_amended (env : LoaderEnv) (data_dir : String) (cache_days : Int)
    (cache : CacheState) (g : Nat) (city : String) (days : Nat)
    (hcity : get_city_info city = none)
    (hmiss : cacheLookup cache data_dir cache_days env.nowSec city days = none) :
    (dl_fetch_historical_data env data_dir cache_days cache g city days).outcome
      = FetchOutcome.locNotFound := by
  unfold dl_fetch_historical_data
  rw [hmiss]
  unfold dl_fetch_fresh
  rw [hcity]

set_option maxHeartbeats 1000000 in
/-- Witness for c4_amended: the unknown name Atlantis with an empty cache. -/
theorem c4_witness :
    (dl_fetch_historical_data envDead "data/raw" 1 emptyCache 0
      "Atlantis" 30).outcome = FetchOutcome.locNotFound :=
  c4_amended envDead "data/raw" 1 emptyCache 0 "Atlantis" 30
    (by decide) (by rfl)

/-- C6 counterexample: with a one-row live source, a fetch for Mumbai with
windowDays 7 stores its series; an immediately following fetch for Mumbai
with windowDays 30 returns that stored series from the cache — the cache
key does not depend on the requested window. -/
theorem c6_counterexample :
    (dl_fetch_historical_data envOkWrite "data/raw" 1 emptyCache 0
        "Mumbai" 7).outcome
      = FetchOutcome.data oneRowFrame Prov.exactPoint
    ∧ (dl_fetch_historical_data envOkWrite "data/raw" 1
        (dl_fetch_historical_data envOkWrite "data/raw" 1 emptyCache 0
          "Mumbai" 7).cache 0 "Mumbai" 30).outcome
      = FetchOutcome.data oneRowFrame Prov.cacheFile := by
  constructor
  · rfl
  · rfl

/-- C6 as amended: the cache file name is independent of the requested
window length (the literal suffix _30days is used for every windowDays), so
a series stored by an acquisition for one windowDays is returned by a fresh
cache lookup for the same location with ANY other windowDays. -/
theorem c6_amended :
    (∀ (data_dir city : String) (d₁ d₂ : Nat),
      cacheFileName data_dir city d₁ = cacheFileName data_dir city d₂)
    ∧ ∀ (cache : CacheState) (data_dir city : String) (d₁ d₂ : Nat)
        (now : Int) (f : Frame) (cache_days : Int), 0 < cache_days →
        cacheLookup (cacheStore cache (cacheFileName data_dir city d₁)
            ⟨now, f⟩) data_dir cache_days now city d₂ = some f := by
  refine ⟨fun _ _ _ _ => rfl, fun cache dir city d₁ d₂ now f cd hcd => ?_⟩
  have hname : cacheFileName dir city d₂ = cacheFileName dir city d₁ := rfl
  have hkey : (cacheStore cache (cacheFileName dir city d₁) ⟨now, f⟩)
      (cacheFileName dir city d₂) = some ⟨now, f⟩ := by
    unfold cacheStore
    rw [if_pos hname]
  unfold cacheLookup
  rw [hkey]
  show (if (now - now).fdiv 86400 < cd then some f else none) = some f
  rw [sub_self, show ((0 : Int).fdiv 86400) = 0 from by decide, if_pos hcd]

/-- Witness for c6_amended: a frame stored for window 7 at time 0 is
returned by a lookup for window 30 at time 0. -/
theorem c6_witness :
    cacheLookup (cacheStore emptyCache (cacheFileName "data/raw" "Mumbai" 7)
        ⟨0, oneRowFrame⟩) "data/raw" 1 0 "Mumbai" 30 = some oneRowFrame :=
  c6_amended.2 emptyCache "data/raw" "Mumbai" 7 30 0 oneRowFrame 1 (by decide)

/-- When the city resolves, the synthetic generator always produces a frame
(its internal get_city_info re-lookup succeeds). -/
theorem dl_generate_some (P : Prng) (sinFn : Rat → Rat) (cal : Int → Nat × Nat)
    (g : Nat) (city : String) (s e : Int) (info : CityInfo)
    (hcity : get_city_info city = some info) :
    ∃ f g', dl_generate_synthetic_data P sinFn cal g city s e = (some f, g') := by
  unfold dl_generate_synthetic_data
  rw [hcity]
  exact ⟨_, _, rfl⟩

/-- With a failing cache write the save-and-return tail raises instead of
returning the frame. -/
theorem dlFinish_writeFailed (env : LoaderEnv) (data_dir : String)
    (cache : CacheState) (city : String) (days : Nat) (f : Frame)
    (prov : Prov) (q : List (Rat × Rat)) (hw : env.writeOk = false) :
    (dlFinish env data_dir cache city days f prov q).outcome
      = FetchOutcome.writeFailed := by
  unfold dlFinish
  rw [hw]
  rfl

/-- C7 counterexample: with a live source that has data at the exact point
but a failing cache write, the acquisition raises (outcome writeFailed) and
the acquired series is NOT returned — yet the identical call with a working
write returns it, so the data had been acquired. -/
theorem c7_counterexample :
    (dl_fetch_historical_data envBadWrite "data/raw" 1 emptyCache 0
        "Mumbai" 30).outcome = FetchOutcome.writeFailed
    ∧ (dl_fetch_historical_data envOkWrite "data/raw" 1 emptyCache 0
        "Mumbai" 30).outcome
      = FetchOutcome.data oneRowFrame Prov.exactPoint := by
  exact ⟨rfl, rfl⟩

/-- C7 as amended: if the cache write fails (disk or permission error), the
acquisition call raises the write error instead of returning the acquired
series: whatever tier produced data, the outcome is writeFailed whenever
the cache missed and the city resolves. -/
theorem c7_amended (env : LoaderEnv) (data_dir : String) (cache_days : Int)
    (cache : CacheState) (g : Nat) (city : String) (days : Nat)
    (info : CityInfo) (hw : env.writeOk = false)
    (hmiss : cacheLookup cache data_dir cache_days env.nowSec city days = none)
    (hcity : get_city_info city = some info) :
    (dl_fetch_historical_data env data_dir cache_days cache g city days).outcome
      = FetchOutcome.writeFailed := by
  unfold dl_fetch_historical_data
  simp only [hmiss]
  unfold dl_fetch_fresh
  simp only [hcity]
  obtain ⟨fS, g', hS⟩ := dl_generate_some env.prng env.sinFn env.cal g city
    (env.nowOrd - (days : Int)) env.nowOrd info hcity
  split
  · split
    · exact dlFinish_writeFailed env data_dir cache city days _ _ _ hw
    · split
      · rw [hS]
        exact dlFinish_writeFailed env data_dir cache city days _ _ _ hw
      · exact dlFinish_writeFailed env data_dir cache city days _ _ _ hw
  · exact dlFinish_writeFailed env data_dir cache city days _ _ _ hw

/-- Witness for c7_amended at a concrete environment and city. -/
theorem c7_witness :
    (dl_fetch_historical_data envBadWrite "data/raw" 1 emptyCache 0
      "Mumbai" 30).outcome = FetchOutcome.writeFailed :=
  c7_amended envBadWrite "data/raw" 1 emptyCache 0 "Mumbai" 30
    ⟨"Mumbai", (190760/10000), (728777/10000), "Maharashtra"⟩ rfl (by rfl) (by rfl)

/-- If the live source is empty at every offset of the list, the
nearby-station loop exhausts the list: no hit, every offset queried. -/
theorem scan_offsets_all_empty (live : Rat → Rat → Frame) (lat lon : Rat) :
    ∀ l : List (Rat × Rat),
      (∀ off ∈ l, (live (lat + off.1) (lon + off.2)).isEmpty = true) →
      scan_offsets live lat lon l
        = (none, l.map (fun off => (lat + off.1, lon + off.2))) := by
  intro l
  induction l with
  | nil => intro _; rfl
  | cons off rest ih =>
    intro h
    have hh := h off (List.mem_cons_self off rest)
    have ihh := ih (fun o ho => h o (List.mem_cons_of_mem _ ho))
    simp only [scan_offsets, hh, if_true, ihh, List.map_cons]

/-- The nearby-station loop short-circuits at the first offset whose query
is non-empty: the offsets before it are queried, the ones after are not. -/
theorem scan_offsets_first_hit (live : Rat → Rat → Frame) (lat lon : Rat) :
    ∀ (l₁ : List (Rat × Rat)) (off : Rat × Rat) (l₂ : List (Rat × Rat)),
      (∀ o ∈ l₁, (live (lat + o.1) (lon + o.2)).isEmpty = true) →
      (live (lat + off.1) (lon + off.2)).isEmpty = false →
      scan_offsets live lat lon (l₁ ++ off :: l₂)
        = (some (live (lat + off.1) (lon + off.2), off),
           l₁.map (fun o => (lat + o.1, lon + o.2))
             ++ [(lat + off.1, lon + off.2)]) := by
  intro l₁
  induction l₁ with
  | nil =>
    intro off l₂ _ hoff
    simp only [List.nil_append, scan_offsets, hoff, List.map_nil]
    rfl
  | cons o rest ih =>
    intro off l₂ h hoff
    have hh := h o (List.mem_cons_self o rest)
    have ihh := ih off l₂ (fun x hx => h x (List.mem_cons_of_mem _ hx)) hoff
    simp only [List.cons_append, scan_offsets, hh, if_true, List.append_eq,
      ihh, List.map_cons]

/-- C1: with a resolved city, a cache miss and a working cache write, the
tiers of fetch_historical_data run strictly in the order exact point,
nearby offsets, Delhi reference point, short-circuiting at the first
non-empty result.  Part one is the scenario of the claim: empty at the
exact point and at every offset but non-empty at Delhi yields the Delhi
series with the Delhi-fallback provenance, the query log being exactly
exact point, all sixteen offsets, Delhi.  Part two: a non-empty exact-point
result returns immediately.  Part three: the offset search stops at the
first non-empty offset. -/
theorem c1_fallback_ordering (env : LoaderEnv) (data_dir : String)
    (cache_days : Int) (cache : CacheState) (g : Nat) (city : String)
    (days : Nat) (info : CityInfo)
    (hcity : get_city_info city = some info)
    (hmiss : cacheLookup cache data_dir cache_days env.nowSec city days = none)
    (hw : env.writeOk = true) :
    (∀ fD : Frame, (env.live info.lat info.lon).isEmpty = true →
      (∀ off ∈ nearby_offsets,
        (env.live (info.lat + off.1) (info.lon + off.2)).isEmpty = true) →
      env.live delhiInfo.lat delhiInfo.lon = fD → fD.isEmpty = false →
      (dl_fetch_historical_data env data_dir cache_days cache g city
          days).outcome = FetchOutcome.data fD Prov.delhiFallback
      ∧ (dl_fetch_historical_data env data_dir cache_days cache g city
          days).queried
        = (info.lat, info.lon)
          :: nearby_offsets.map (fun off => (info.lat + off.1, info.lon + off.2))
          ++ [(delhiInfo.lat, delhiInfo.lon)])
    ∧ ((env.live info.lat info.lon).isEmpty = false →
      (dl_fetch_historical_data env data_dir cache_days cache g city
          days).outcome
        = FetchOutcome.data (env.live info.lat info.lon) Prov.exactPoint
      ∧ (dl_fetch_historical_data env data_dir cache_days cache g city
          days).queried = [(info.lat, info.lon)])
    ∧ (∀ (l₁ : List (Rat × Rat)) (off : Rat × Rat) (l₂ : List (Rat × Rat)),
      nearby_offsets = l₁ ++ off :: l₂ →
      (env.live info.lat info.lon).isEmpty = true →
      (∀ o ∈ l₁, (env.live (info.lat + o.1) (info.lon + o.2)).isEmpty = true) →
      (env.live (info.lat + off.1) (info.lon + off.2)).isEmpty = false →
      (dl_fetch_historical_data env data_dir cache_days cache g city
          days).outcome
        = FetchOutcome.data (env.live (info.lat + off.1) (info.lon + off.2))
            (Prov.nearbyStation off)
      ∧ (dl_fetch_historical_data env data_dir cache_days cache g city
          days).queried
        = (info.lat, info.lon)
          :: l₁.map (fun o => (info.lat + o.1, info.lon + o.2))
          ++ [(info.lat + off.1, info.lon + off.2)]) := by
  unfold dl_fetch_historical_data
  simp only [hmiss]
  unfold dl_fetch_fresh
  simp only [hcity]
  refine ⟨?_, ?_, ?_⟩
  · intro fD h0 hoffs hD hDne
    rw [scan_offsets_all_empty env.live info.lat info.lon nearby_offsets hoffs]
    simp only [h0, if_true, hD, hDne, if_false, Bool.false_eq_true]
    unfold dlFinish
    rw [hw]
    exact ⟨rfl, rfl⟩
  · intro h0
    simp only [h0, Bool.false_eq_true, if_false]
    unfold dlFinish
    rw [hw]
    exact ⟨rfl, rfl⟩
  · intro l₁ off l₂ hsplit h0 hbefore hhit
    rw [hsplit,
      scan_offsets_first_hit env.live info.lat info.lon l₁ off l₂ hbefore hhit]
    simp only [h0, if_true]
    unfold dlFinish
    rw [hw]
    exact ⟨rfl, rfl⟩

/-- A live source with data only north of latitude 25: empty at Mumbai and
at all its sixteen offsets, non-empty at Delhi. -/
def liveNorthOnly : Rat → Rat → Frame :=
  fun a _ => if (25 : Rat) < a then oneRowFrame else Frame.noRows

/-- Environment built on liveNorthOnly with working cache writes. -/
def envNorth : LoaderEnv := ⟨liveNorthOnly, trivPrng, zeroSin, janCal, 0, 0, true⟩

/-- Witness for c1_fallback_ordering: fetching Mumbai against liveNorthOnly
returns the Delhi series tagged with the Delhi-fallback provenance. -/
theorem c1_witness :
    (dl_fetch_historical_data envNorth "data/raw" 1 emptyCache 0 "Mumbai"
        30).outcome = FetchOutcome.data oneRowFrame Prov.delhiFallback :=
  ((c1_fallback_ordering envNorth "data/raw" 1 emptyCache 0 "Mumbai" 30
      ⟨"Mumbai", (190760/10000), (728777/10000), "Maharashtra"⟩
      (by rfl) (by rfl) rfl).1 oneRowFrame
    (by with_unfolding_all rfl)
    (of_decide_eq_true (by with_unfolding_all rfl))
    (by with_unfolding_all rfl)
    (by rfl)).1

/-- C3: the standalone synthetic generator reseeds the pseudo-random source
to the constant 42 before drawing, so its output does not depend on the
incoming global random state at all: two calls with identical inputs agree
whatever states they start from.  The data_loader generator draws from the
incoming state without reseeding, so for it determinism is relative to the
state: equal states and identical inputs give identical series. -/
theorem c3_synthetic_deterministic :
    (∀ (P : Prng) (sinFn : Rat → Rat) (cal : Int → Nat × Nat) (g₁ g₂ : Nat)
        (lat lon : Rat) (days : Nat) (nowOrd : Int),
      sa_generate_synthetic_history P sinFn cal g₁ lat lon days nowOrd
        = sa_generate_synthetic_history P sinFn cal g₂ lat lon days nowOrd)
    ∧ ∀ (P : Prng) (sinFn : Rat → Rat) (cal : Int → Nat × Nat) (g₁ g₂ : Nat)
        (city : String) (s e : Int), g₁ = g₂ →
      dl_generate_synthetic_data P sinFn cal g₁ city s e
        = dl_generate_synthetic_data P sinFn cal g₂ city s e :=
  ⟨fun _ _ _ _ _ _ _ _ _ => rfl,
   fun _ _ _ _ _ _ _ _ h => by rw [h]⟩

/-- Witness for c3_synthetic_deterministic: the standalone generator gives
the same series from global states 0 and 99; the data_loader generator is
applied at the same state on both sides. -/
theorem c3_witness :
    sa_generate_synthetic_history trivPrng zeroSin janCal 0 0 0 3 0
      = sa_generate_synthetic_history trivPrng zeroSin janCal 99 0 0 3 0
    ∧ dl_generate_synthetic_data trivPrng zeroSin janCal 5 "Mumbai" 0 2
      = dl_generate_synthetic_data trivPrng zeroSin janCal 5 "Mumbai" 0 2 :=
  ⟨c3_synthetic_deterministic.1 trivPrng zeroSin janCal 0 99 0 0 3 0,
   c3_synthetic_deterministic.2 trivPrng zeroSin janCal 5 5 "Mumbai" 0 2 rfl⟩

/-- Each vectorized draw yields exactly the requested number of values. -/
theorem drawN_length (f : Nat → Rat × Nat) :
    ∀ (n : Nat) (g : Nat), (drawN f n g).1.length = n := by
  intro n
  induction n with
  | zero => intro g; rfl
  | succ k ih => intro g; simp [drawN, ih]

/-- Cumulative sums preserve length. -/
theorem cumsum_length (l : List Rat) : (cumsum l).length = l.length := by
  unfold cumsum
  simp [List.length_scanl]

/-- A list of some-values contains no missing value. -/
theorem mem_map_some_isSome (f : Rat → Rat) (xs : List Rat) :
    ∀ o ∈ xs.map (fun x => some (f x)), o.isSome = true := by
  intro o ho
  rcases List.mem_map.1 ho with ⟨x, _, rfl⟩
  rfl

/-- The ascending arithmetic progression on a range is a chain of
consecutive days. -/
theorem chain'_range_map_add (s : Int) (n : Nat) :
    List.Chain' (fun a b => b = a + 1)
      ((List.range n).map (fun (k : Nat) => s + (k : Int))) := by
  refine (List.chain'_map (fun k : Nat => s + (k : Int))).mpr ?_
  cases n with
  | zero => simp
  | succ m =>
    rw [List.chain'_range_succ]
    intro i _
    push_cast
    ring

/-- The descending offsets of range reversed and subtracted from a fixed
day form a chain of consecutive days. -/
theorem chain'_rev_range_map_sub (nowOrd : Int) (n : Nat) :
    List.Chain' (fun a b => b = a + 1)
      (((List.range n).reverse).map (fun (i : Nat) => nowOrd - (i : Int))) := by
  refine (List.chain'_map (fun i : Nat => nowOrd - (i : Int))).mpr ?_
  refine List.chain'_reverse.mpr ?_
  cases n with
  | zero => simp
  | succ m =>
    rw [List.chain'_range_succ]
    intro i _
    show nowOrd - (i : Int) = nowOrd - ((i + 1 : Nat) : Int) + 1
    push_cast
    ring

/-- A frame with exactly n rows: every column has length n, no metric cell
is missing, and the dates advance by exactly one calendar day per row. -/
def FrameComplete (f : Frame) (n : Nat) : Prop :=
  f.dates.length = n ∧ f.tavg.length = n ∧ f.tmin.length = n
  ∧ f.tmax.length = n ∧ f.prcp.length = n ∧ f.wspd.length = n
  ∧ f.pres.length = n
  ∧ (∀ o ∈ f.tavg, o.isSome = true) ∧ (∀ o ∈ f.tmin, o.isSome = true)
  ∧ (∀ o ∈ f.tmax, o.isSome = true) ∧ (∀ o ∈ f.prcp, o.isSome = true)
  ∧ (∀ o ∈ f.wspd, o.isSome = true) ∧ (∀ o ∈ f.pres, o.isSome = true)
  ∧ List.Chain' (fun a b => b = a + 1) f.dates

/-- C2 as amended: the standalone generator returns exactly windowDays
observations, one per calendar day, with no missing metric value; the
data_loader generator, invoked on the window [now - windowDays, now] the
fetch passes it, returns windowDays PLUS ONE observations (pandas
date_range includes both endpoints), likewise complete. -/
theorem c2_amended :
    (∀ (P : Prng) (sinFn : Rat → Rat) (cal : Int → Nat × Nat) (g : Nat)
        (lat lon : Rat) (days : Nat) (nowOrd : Int), 0 < days →
      FrameComplete
        (sa_generate_synthetic_history P sinFn cal g lat lon days nowOrd).1
        days)
    ∧ ∀ (P : Prng) (sinFn : Rat → Rat) (cal : Int → Nat × Nat) (g : Nat)
        (city : String) (days : Nat) (endOrd : Int) (f : Frame) (g' : Nat),
      dl_generate_synthetic_data P sinFn cal g city (endOrd - (days : Int))
          endOrd = (some f, g') →
      FrameComplete f (days + 1) := by
  constructor
  · intro P sinFn cal g lat lon days nowOrd _
    unfold sa_generate_synthetic_history FrameComplete
    refine ⟨?_, ?_, ?_, ?_, ?_, ?_, ?_,
      mem_map_some_isSome _ _, mem_map_some_isSome _ _, mem_map_some_isSome _ _,
      mem_map_some_isSome _ _, mem_map_some_isSome _ _, mem_map_some_isSome _ _,
      chain'_rev_range_map_sub nowOrd days⟩ <;>
      simp [List.length_zipWith, drawN_length, cumsum_length]
  · intro P sinFn cal g city days endOrd f g' h
    have hf : (dl_generate_synthetic_data P sinFn cal g city
        (endOrd - (days : Int)) endOrd).1 = some f := by rw [h]
    unfold dl_generate_synthetic_data at hf
    cases hcity : get_city_info city with
    | none =>
      rw [hcity] at hf
      simp at hf
    | some info =>
      rw [hcity] at hf
      simp only [Option.some.injEq] at hf
      subst hf
      have hN : (endOrd - (endOrd - (days : Int)) + 1).toNat = days + 1 := by
        omega
      unfold FrameComplete
      refine ⟨?_, ?_, ?_, ?_, ?_, ?_, ?_,
        mem_map_some_isSome _ _, mem_map_some_isSome _ _, mem_map_some_isSome _ _,
        mem_map_some_isSome _ _, mem_map_some_isSome _ _, mem_map_some_isSome _ _,
        ?_⟩
      · simp [date_range_daily, hN]
      · simp [date_range_daily, List.length_zipWith, drawN_length, hN]
      · simp [date_range_daily, List.length_zipWith, drawN_length, hN]
      · simp [date_range_daily, List.length_zipWith, drawN_length, hN]
      · simp [date_range_daily, List.length_zipWith, drawN_length, hN]
      · simp [date_range_daily, List.length_zipWith, drawN_length, hN]
      · simp [date_range_daily, List.length_zipWith, drawN_length, hN]
      · exact chain'_range_map_add (endOrd - (days : Int))
          (endOrd - (endOrd - (days : Int)) + 1).toNat

/-- Project the row count out of a fetch outcome (0 when no data). -/
def outcomeFrameLen : FetchOutcome → Nat
  | .data f _ => f.dates.length
  | _ => 0

/-- Whether a fetch outcome carries the synthetic provenance. -/
def outcomeIsSynth : FetchOutcome → Bool
  | .data _ .synthetic => true
  | _ => false

/-- C2 counterexample: requesting windowDays = 2 for Tawang with no live
data anywhere reaches the synthetic tier of fetch_historical_data, and the
returned series has THREE observations, not two: _generate_synthetic_data
builds pd.date_range(now - 2 days, now), which includes both endpoints. -/
theorem c2_counterexample :
    outcomeIsSynth (dl_fetch_historical_data envDead "data/raw" 1 emptyCache
        0 "Tawang" 2).outcome = true
    ∧ outcomeFrameLen (dl_fetch_historical_data envDead "data/raw" 1
        emptyCache 0 "Tawang" 2).outcome = 3
    ∧ outcomeFrameLen (dl_fetch_historical_data envDead "data/raw" 1
        emptyCache 0 "Tawang" 2).outcome ≠ 2 := by
  refine ⟨rfl, rfl, ?_⟩
  intro hcontra
  simp only [show outcomeFrameLen (dl_fetch_historical_data envDead
    "data/raw" 1 emptyCache 0 "Tawang" 2).outcome = 3 from rfl] at hcontra
  omega

/-- Witness for c2_amended: the standalone generator makes a complete
3-day frame, the data_loader generator a complete 3-row frame for a 2-day
window. -/
theorem c2_witness :
    FrameComplete
      (sa_generate_synthetic_history trivPrng zeroSin janCal 0 0 0 3 0).1 3
    ∧ FrameComplete
      ((dl_generate_synthetic_data trivPrng zeroSin janCal 0 "Mumbai"
          ((0 : Int) - ((2 : Nat) : Int)) 0).1.getD Frame.noRows) 3 :=
  ⟨c2_amended.1 trivPrng zeroSin janCal 0 0 0 3 0 (by decide),
   c2_amended.2 trivPrng zeroSin janCal 0 "Mumbai" 2 0
     ((dl_generate_synthetic_data trivPrng zeroSin janCal 0 "Mumbai"
         ((0 : Int) - ((2 : Nat) : Int)) 0).1.getD Frame.noRows)
     ((dl_generate_synthetic_data trivPrng zeroSin janCal 0 "Mumbai"
         ((0 : Int) - ((2 : Nat) : Int)) 0).2) (by rfl)⟩

/-- Rounding to one decimal stays inside an interval with integral bounds. -/
theorem round1_bounds (x : Rat) (n : Nat) (h0 : 0 ≤ x) (hn : x ≤ (n : Rat)) :
    0 ≤ round1 x ∧ round1 x ≤ (n : Rat) := by
  unfold round1
  have hr := round_eq (x * 10)
  have hlow : (0 : Int) ≤ ⌊x * 10 + 1 / 2⌋ := by
    apply Int.le_floor.2
    push_cast
    linarith
  have hhigh : ⌊x * 10 + 1 / 2⌋ ≤ (10 * n : Int) := by
    have : ⌊x * 10 + 1 / 2⌋ < (10 * n : Int) + 1 := by
      apply Int.floor_lt.2
      push_cast
      linarith
    omega
  constructor
  · apply div_nonneg _ (by norm_num : (0:Rat) ≤ 10)
    rw [hr]
    exact_mod_cast hlow
  · rw [div_le_iff₀ (by norm_num : (0:Rat) < 10), hr]
    calc ((⌊x * 10 + 1 / 2⌋ : Int) : Rat) ≤ ((10 * n : Int) : Rat) := by
          exact_mod_cast hhigh
      _ = (n : Rat) * 10 := by push_cast; ring

/-- np.clip keeps every value inside the clipping interval. -/
theorem npClip_bounds (x lo hi : Rat) (h : lo ≤ hi) :
    lo ≤ npClip x lo hi ∧ npClip x lo hi ≤ hi :=
  ⟨le_max_left lo _, max_le h (min_le_right x hi)⟩

/-- C9: every precipitation value either synthetic generator produces lies
in the closed interval [0, 150], whatever the location, window and random
draws: the data_loader generator clips to [0, 150] and the standalone one
to [0, 50], and rounding to one decimal preserves the bounds. -/
theorem c9_precipitation_range :
    (∀ (P : Prng) (sinFn : Rat → Rat) (cal : Int → Nat × Nat) (g : Nat)
        (lat lon : Rat) (days : Nat) (nowOrd : Int) (x : Rat),
      some x ∈ (sa_generate_synthetic_history P sinFn cal g lat lon days
          nowOrd).1.prcp →
      0 ≤ x ∧ x ≤ 150)
    ∧ ∀ (P : Prng) (sinFn : Rat → Rat) (cal : Int → Nat × Nat) (g : Nat)
        (city : String) (s e : Int) (f : Frame) (g' : Nat) (x : Rat),
      dl_generate_synthetic_data P sinFn cal g city s e = (some f, g') →
      some x ∈ f.prcp →
      0 ≤ x ∧ x ≤ 150 := by
  constructor
  · intro P sinFn cal g lat lon days nowOrd x hx
    unfold sa_generate_synthetic_history at hx
    simp only [List.mem_map, Option.some.injEq] at hx
    obtain ⟨y, ⟨z, hz, rfl⟩, rfl⟩ := hx
    have hc := npClip_bounds z 0 50 (by norm_num)
    have hb := round1_bounds (npClip z 0 50) 50 hc.1 (by exact_mod_cast hc.2)
    refine ⟨hb.1, le_trans hb.2 ?_⟩
    norm_num
  · intro P sinFn cal g city s e f g' x h hx
    have hf : (dl_generate_synthetic_data P sinFn cal g city s e).1
        = some f := by rw [h]
    unfold dl_generate_synthetic_data at hf
    cases hcity : get_city_info city with
    | none =>
      rw [hcity] at hf
      simp at hf
    | some info =>
      rw [hcity] at hf
      simp only [Option.some.injEq] at hf
      subst hf
      simp only [List.mem_map, Option.some.injEq] at hx
      obtain ⟨y, ⟨z, hz, rfl⟩, rfl⟩ := hx
      have hc := npClip_bounds z 0 150 (by norm_num)
      have hb := round1_bounds (npClip z 0 150) 150 hc.1 (by exact_mod_cast hc.2)
      exact ⟨hb.1, by exact_mod_cast hb.2⟩

/-- Witness for c9_precipitation_range: the one-day standalone series of
the trivial random source has its single precipitation value in bounds. -/
theorem c9_witness :
    0 ≤ round1 (npClip (3 * (3/10)) 0 50)
    ∧ round1 (npClip (3 * (3/10)) 0 50) ≤ 150 :=
  c9_precipitation_range.1 trivPrng zeroSin janCal 0 0 0 1 0
    (round1 (npClip (3 * (3/10)) 0 50))
    (of_decide_eq_true (by with_unfolding_all rfl))

/-- Forward filling preserves length. -/
theorem ffillGo_length : ∀ (c : List (Option Rat)) (carry : Option Rat),
    (ffillGo carry c).length = c.length := by
  intro c
  induction c with
  | nil => intro carry; rfl
  | cons o rest ih => intro carry; simp [ffillGo, ih]

/-- Every cell a forward fill produces is either the incoming carry or a
value present in the raw column. -/
theorem mem_ffillGo : ∀ (c : List (Option Rat)) (carry : Option Rat),
    ∀ x ∈ ffillGo carry c, x = carry ∨ ∃ v, x = some v ∧ some v ∈ c := by
  intro c
  induction c with
  | nil => intro carry x hx; cases hx
  | cons o rest ih =>
    intro carry x hx
    cases o with
    | some w =>
      simp only [ffillGo] at hx
      rcases List.mem_cons.1 hx with rfl | hx2
      · exact Or.inr ⟨w, rfl, List.mem_cons_self _ _⟩
      · rcases ih (some w) x hx2 with rfl | ⟨v, rfl, hv⟩
        · exact Or.inr ⟨w, rfl, List.mem_cons_self _ _⟩
        · exact Or.inr ⟨v, rfl, List.mem_cons_of_mem _ hv⟩
    | none =>
      simp only [ffillGo] at hx
      rcases List.mem_cons.1 hx with rfl | hx2
      · exact Or.inl rfl
      · rcases ih carry x hx2 with rfl | ⟨v, rfl, hv⟩
        · exact Or.inl rfl
        · exact Or.inr ⟨v, rfl, List.mem_cons_of_mem _ hv⟩

/-- Once the carry holds a value, every later cell of the forward fill is
present. -/
theorem ffill_carrySome : ∀ (c : List (Option Rat)) (w : Rat),
    ∀ x ∈ ffillGo (some w) c, x.isSome = true := by
  intro c
  induction c with
  | nil => intro w x hx; cases hx
  | cons o rest ih =>
    intro w x hx
    cases o with
    | some u =>
      simp only [ffillGo] at hx
      rcases List.mem_cons.1 hx with rfl | hx2
      · rfl
      · exact ih u x hx2
    | none =>
      simp only [ffillGo] at hx
      rcases List.mem_cons.1 hx with rfl | hx2
      · rfl
      · exact ih w x hx2

/-- Dropping the head keeps the last element of a non-empty tail. -/
theorem getLast?_cons_ne {α : Type} (a : α) (l : List α) (h : l ≠ []) :
    (a :: l).getLast? = l.getLast? := by
  cases l with
  | nil => exact absurd rfl h
  | cons b t => exact List.getLast?_cons_cons

/-- A forward fill over a column that has a value somewhere (or starts with
a present carry) ends in a present cell. -/
theorem ffillGo_getLast : ∀ (c : List (Option Rat)) (carry : Option Rat),
    c ≠ [] → ((∃ v, some v ∈ c) ∨ carry.isSome = true) →
    ∃ w, (ffillGo carry c).getLast? = some (some w) := by
  intro c
  induction c with
  | nil => intro carry hne _; exact absurd rfl hne
  | cons o rest ih =>
    intro carry hne hh
    cases rest with
    | nil =>
      cases o with
      | some w => exact ⟨w, rfl⟩
      | none =>
        rcases hh with ⟨v, hv⟩ | hc
        · simp at hv
        · cases carry with
          | none => simp at hc
          | some w => exact ⟨w, rfl⟩
    | cons o2 rest2 =>
      have hne2 : (o2 :: rest2 : List (Option Rat)) ≠ [] := by simp
      cases o with
      | some w =>
        have hlen : ffillGo (some w) (o2 :: rest2) ≠ [] := by
          intro hc
          have hl := ffillGo_length (o2 :: rest2) (some w)
          rw [hc] at hl
          simp at hl
        have hstep : ffillGo carry (some w :: o2 :: rest2)
            = some w :: ffillGo (some w) (o2 :: rest2) := rfl
        rw [hstep, getLast?_cons_ne _ _ hlen]
        exact ih (some w) hne2 (Or.inr rfl)
      | none =>
        have hlen : ffillGo carry (o2 :: rest2) ≠ [] := by
          intro hc
          have hl := ffillGo_length (o2 :: rest2) carry
          rw [hc] at hl
          simp at hl
        have hstep : ffillGo carry (none :: o2 :: rest2)
            = carry :: ffillGo carry (o2 :: rest2) := rfl
        rw [hstep, getLast?_cons_ne _ _ hlen]
        apply ih carry hne2
        rcases hh with ⟨v, hv⟩ | hc
        · rcases List.mem_cons.1 hv with heq | hv2
          · exact absurd heq (by simp)
          · exact Or.inl ⟨v, hv2⟩
        · exact Or.inr hc

/-- After forward AND backward fill, a column with at least one present
value has no missing cell left. -/
theorem bfill_ffill_all_some (c : List (Option Rat)) (h : ∃ v, some v ∈ c) :
    ∀ x ∈ bfillCol (ffillCol c), x.isSome = true := by
  intro x hx
  unfold bfillCol at hx
  rw [List.mem_reverse] at hx
  have hcne : c ≠ [] := by
    rcases h with ⟨v, hv⟩
    intro hc
    subst hc
    cases hv
  obtain ⟨w, hw⟩ := ffillGo_getLast c none hcne (Or.inl h)
  have hhead : (ffillCol c).reverse.head? = some (some w) := by
    rw [List.head?_reverse]
    exact hw
  cases hrev : (ffillCol c).reverse with
  | nil => rw [hrev] at hhead; cases hhead
  | cons a t =>
    rw [hrev] at hhead
    simp only [List.head?_cons, Option.some.injEq] at hhead
    rw [hrev, hhead] at hx
    simp only [ffillGo] at hx
    rcases List.mem_cons.1 hx with rfl | hx2
    · rfl
    · exact ffill_carrySome t w x hx2

/-- Every present cell the forward-backward fill produces carries a value
that was present in the raw column. -/
theorem mem_bfill_ffill (c : List (Option Rat)) :
    ∀ x ∈ bfillCol (ffillCol c), x = none ∨ ∃ v, x = some v ∧ some v ∈ c := by
  intro x hx
  unfold bfillCol at hx
  rw [List.mem_reverse] at hx
  rcases mem_ffillGo _ none x hx with rfl | ⟨v, rfl, hv⟩
  · exact Or.inl rfl
  · rw [List.mem_reverse] at hv
    rcases mem_ffillGo c none (some v) hv with h1 | ⟨u, hu, hmem⟩
    · exact absurd h1 (by simp)
    · obtain rfl : v = u := by injection hu
      exact Or.inr ⟨v, rfl, hmem⟩

/-- The forward-backward fill of an all-missing column is all missing. -/
theorem bfill_ffill_all_none (c : List (Option Rat))
    (h : ∀ x ∈ c, x = none) :
    ∀ x ∈ bfillCol (ffillCol c), x = none := by
  intro x hx
  rcases mem_bfill_ffill c x hx with rfl | ⟨v, rfl, hv⟩
  · rfl
  · exact absurd (h _ hv) (by simp)

/-- When the raw column has a present value somewhere, every cell of the
filled-then-defaulted column carries a value present in the raw column
(the default is never used). -/
theorem fillna_bfill_ffill_from_data (c : List (Option Rat)) (dflt : Rat)
    (hne : ∃ v, some v ∈ c) :
    ∀ x ∈ fillnaCol dflt (bfillCol (ffillCol c)),
      ∃ v, x = some v ∧ some v ∈ c := by
  intro x hx
  rcases List.mem_map.1 hx with ⟨y, hy, rfl⟩
  have hysome := bfill_ffill_all_some c hne y hy
  cases y with
  | none => simp at hysome
  | some v =>
    rcases mem_bfill_ffill c (some v) hy with h1 | ⟨u, hu, hmem⟩
    · exact absurd h1 (by simp)
    · obtain rfl : v = u := by injection hu
      exact ⟨v, rfl, hmem⟩

/-- When the raw column is entirely missing, every cell of the
filled-then-defaulted column is the default. -/
theorem fillna_bfill_ffill_all_dflt (c : List (Option Rat)) (dflt : Rat)
    (hall : ∀ x ∈ c, x = none) :
    ∀ x ∈ fillnaCol dflt (bfillCol (ffillCol c)), x = some dflt := by
  intro x hx
  rcases List.mem_map.1 hx with ⟨y, hy, rfl⟩
  have hn := bfill_ffill_all_none c hall y hy
  subst hn
  rfl

/-- C8: the numeric cleanup of _fetch_from_meteostat.  A missing
precipitation day holds 0 afterwards.  A missing temperature cell is filled
forward/backward from the observed values of the series whenever at least
one observation exists, and becomes the fixed default 25 exactly when the
whole column is missing.  Wind and pressure cells are likewise
forward/backward filled from observed values when any exist (so the
column-mean fallback never fires then), and become the fixed defaults 10
and 1013 when the whole column is missing. -/
theorem c8_missing_value_cleanup :
    ∀ c : List (Option Rat),
      (∀ i : Nat, c.get? i = some none →
        (sa_clean_prcp c).get? i = some (some 0))
      ∧ ((∃ v, some v ∈ c) →
        ∀ x ∈ sa_clean_temp c, ∃ v, x = some v ∧ some v ∈ c)
      ∧ ((∀ x ∈ c, x = none) → ∀ x ∈ sa_clean_temp c, x = some 25)
      ∧ ((∃ v, some v ∈ c) →
        ∀ x ∈ sa_clean_wind_pressure 10 c, ∃ v, x = some v ∧ some v ∈ c)
      ∧ ((∀ x ∈ c, x = none) →
        ∀ x ∈ sa_clean_wind_pressure 10 c, x = some 10)
      ∧ ((∃ v, some v ∈ c) →
        ∀ x ∈ sa_clean_wind_pressure 1013 c, ∃ v, x = some v ∧ some v ∈ c)
      ∧ ((∀ x ∈ c, x = none) →
        ∀ x ∈ sa_clean_wind_pressure 1013 c, x = some 1013) := by
  intro c
  have hwp : ∀ (dflt : Rat), (∀ x ∈ c, x = none) →
      ∀ x ∈ sa_clean_wind_pressure dflt c, x = some dflt := by
    intro dflt hall x hx
    have hany : (bfillCol (ffillCol c)).any Option.isSome = false := by
      rw [List.any_eq_false]
      intro o ho
      rw [bfill_ffill_all_none c hall o ho]
      simp
    have hx' := fillna_bfill_ffill_all_dflt c _ hall x hx
    rw [hx']
    simp [hany]
  refine ⟨?_, ?_, ?_, ?_, hwp 10, ?_, hwp 1013⟩
  · intro i hi
    unfold sa_clean_prcp fillnaCol
    rw [List.get?_map, hi]
    rfl
  · exact fillna_bfill_ffill_from_data c 25
  · exact fillna_bfill_ffill_all_dflt c 25
  · exact fun hne => fillna_bfill_ffill_from_data c _ hne
  · exact fun hne => fillna_bfill_ffill_from_data c _ hne

/-- Witness for c8_missing_value_cleanup on the column
[missing, 3, missing]: the missing precipitation day becomes 0, and the
cell value 3 of the cleaned temperature column is one of the observed
values. -/
theorem c8_witness :
    (sa_clean_prcp [none, some (3:Rat), none]).get? 0 = some (some 0)
    ∧ ∃ v, (some (3:Rat) : Option Rat) = some v
        ∧ some v ∈ [none, some (3:Rat), none] :=
  ⟨(c8_missing_value_cleanup [none, some 3, none]).1 0 rfl,
   (c8_missing_value_cleanup [none, some 3, none]).2.1
     ⟨3, by decide⟩ (some 3) (by decide)⟩
